import Mathlib

/-!
# nocode-slackbot: event dispatch, command handling and the completion ledger

A shallow embedding of `slack.go` (`simplePayload`, `handleSlashCommand`, the
registry construction and the event loop of `Run`) and of the `Workflow` type
of `main.go`.

Modelling conventions.

* Go maps are finite association lists (`GoMap`); `m[k]` with the comma-ok
  form is `GoMap.get?`, the first entry under the key, and `m[k] = v` is
  `GoMap.set`, which drops any earlier entry under the key.
* A run-time panic is the `Except.error` result of a handler.  The only
  operations of the event loop that can panic are the slice index
  `BlockActions[0]` and the dereference `*evt.Request`.
* Calls on the socket-mode client are recorded, in program order, as a list
  of `Effect`s.  Diagnostics are recorded by their format string only.
* What the environment decides during one event (the clock reading of
  `time.Now()` and the error returned by `PostMessage`) is an `Env`.
* `time.Time.Format(time.RFC3339)` belongs to the standard library and is a
  parameter `rfc3339` of the handlers.
* Values of the slack-go library are records holding the fields the program
  reads.  The library builds the elements of `BlockActions` itself, so they
  are never nil; the slice may be empty.
-/

namespace Slackbot

/-! ## Library values -/

namespace time

/-- An instant, as returned by `time.Now()`. -/
structure Time where
  unixNano : Int
deriving DecidableEq, Repr

end time

namespace slack

/-- The constant `slack.MarkdownType`. -/
def MarkdownType : String := "mrkdwn"

/-- The constant `slack.MBTSection`. -/
def MBTSection : String := "section"

/-- The constant `slack.InteractionTypeBlockActions`. -/
def InteractionTypeBlockActions : String := "block_actions"

/-- The struct `slack.TextBlockObject` (fields the program sets). -/
structure TextBlockObject where
  Type_ : String
  Text : String
deriving DecidableEq, Repr

/-- A `slack.Block`: a section block, or any other block kept as loaded. -/
inductive Block where
  | sectionBlock (Type_ : String) (Text : Option TextBlockObject)
      (Fields : List TextBlockObject) (Accessory : Option String)
  | other (Type_ : String) (body : String)
deriving DecidableEq, Repr

/-- The constructor `slack.NewSectionBlock(textObj, fields, accessory)`. -/
def NewSectionBlock (textObj : Option TextBlockObject) (fields : List TextBlockObject)
    (accessory : Option String) : Block :=
  Block.sectionBlock MBTSection textObj fields accessory

/-- A `slack.Message`: its block set and the rest of the payload as loaded. -/
structure Message where
  Blocks : List Block
  Rest : String
deriving DecidableEq, Repr

/-- The struct `slack.SlashCommand`. -/
structure SlashCommand where
  Command : String
  Text : String
deriving DecidableEq, Repr

/-- The struct `slack.BlockAction`. -/
structure BlockAction where
  ActionID : String
  Value : String
deriving DecidableEq, Repr

/-- The struct `slack.ActionCallbacks`. -/
structure ActionCallbacks where
  BlockActions : List BlockAction
deriving DecidableEq, Repr

/-- The struct `slack.User`. -/
structure User where
  Name : String
deriving DecidableEq, Repr

/-- The struct `slack.Channel`. -/
structure Channel where
  ID : String
deriving DecidableEq, Repr

/-- The struct `slack.InteractionCallback`. -/
structure InteractionCallback where
  Type_ : String
  User : User
  Channel : Channel
  ActionCallback : ActionCallbacks
deriving DecidableEq, Repr

end slack

namespace slackevents

/-- The struct `slackevents.EventsAPIEvent`; the program only prints it. -/
structure EventsAPIEvent where
  Type_ : String
deriving DecidableEq, Repr

end slackevents

namespace socketmode

def EventTypeConnecting : String := "connecting"
def EventTypeConnectionError : String := "connection_error"
def EventTypeConnected : String := "connected"
def EventTypeEventsAPI : String := "events_api"
def EventTypeInteractive : String := "interactive"
def EventTypeSlashCommand : String := "slash_commands"

/-- The struct `socketmode.Request`: the envelope to acknowledge. -/
structure Request where
  EnvelopeID : String
deriving DecidableEq, Repr

/-- The dynamic value of `evt.Data`. -/
inductive Data where
  | eventsAPIEvent (e : slackevents.EventsAPIEvent)
  | interactionCallback (cb : slack.InteractionCallback)
  | slashCommand (cmd : slack.SlashCommand)
  | other
deriving DecidableEq, Repr

/-- The struct `socketmode.Event`; `Request` is a pointer and may be nil. -/
structure Event where
  Type_ : String
  Data : Data
  Request : Option Request
deriving DecidableEq, Repr

end socketmode

/-! ## Go maps -/

/-- A Go `map[string]V`. -/
structure GoMap (V : Type) where
  entries : List (String × V)
deriving DecidableEq, Repr

namespace GoMap

/-- The value of `make(map[string]V)`. -/
def empty {V : Type} : GoMap V := ⟨[]⟩

/-- The lookup `v, ok := m[k]`. -/
def get? {V : Type} (m : GoMap V) (k : String) : Option V :=
  (m.entries.find? (fun e => e.1 == k)).map Prod.snd

/-- The assignment `m[k] = v`. -/
def set {V : Type} (m : GoMap V) (k : String) (v : V) : GoMap V :=
  ⟨(k, v) :: m.entries.filter (fun e => e.1 != k)⟩

end GoMap

/-! ## Program types -/

/-- The struct `Workflow` of `main.go`. -/
structure Workflow where
  Name : String
  File : String
deriving DecidableEq, Repr

/-- The struct `FinishedWorkflow`. -/
structure FinishedWorkflow where
  User : String
  Time : time.Time
  Message : String
  Value : String
deriving DecidableEq, Repr

/-- The payload argument of `client.Ack`. -/
inductive Payload where
  | absent
  | nilInterface
  | emptyStruct
  | blocksMap (blocks : List slack.Block)
  | message (msg : slack.Message)
deriving DecidableEq, Repr

/-- A run-time panic. -/
inductive Panic where
  | indexOutOfRange (index : Nat) (length : Nat)
  | nilDereference
deriving DecidableEq, Repr

/-- A call made on the client, or a diagnostic line. -/
inductive Effect where
  | ack (req : socketmode.Request) (payload : Payload)
  | postMessage (channelID : String) (blocks : List slack.Block)
  | log (format : String)
deriving DecidableEq, Repr

/-- The package-level variables `messages` and `finishedWorkflows`. -/
structure World where
  messages : GoMap slack.Message
  finishedWorkflows : List FinishedWorkflow
deriving DecidableEq, Repr

/-- What the environment supplies while one event is handled. -/
structure Env where
  now : time.Time
  postErr : Option String
deriving DecidableEq, Repr

/-- The slice index expression `xs[i]`. -/
def index {α : Type} (xs : List α) (i : Nat) : Except Panic α :=
  match xs.get? i with
  | some a => Except.ok a
  | none => Except.error (Panic.indexOutOfRange i xs.length)

/-- The pointer dereference `*p`. -/
def deref {α : Type} (p : Option α) : Except Panic α :=
  match p with
  | some a => Except.ok a
  | none => Except.error Panic.nilDereference

/-! ## slack.go -/

/-- The function `simplePayload`. -/
def simplePayload (text : String) : Payload :=
  Payload.blocksMap
    [slack.NewSectionBlock (some ⟨slack.MarkdownType, text⟩) [] none]

/-- The line `fmt.Sprintf("%s | %s | selected %s", ...)` of the summary. -/
def summaryLine (rfc3339 : time.Time → String) (workflow : FinishedWorkflow) : String :=
  workflow.User ++ " | " ++ rfc3339 workflow.Time ++ " | selected " ++ workflow.Value

/-- The loop of the `/summary` case: one section block appended per record. -/
def summaryBlocks (rfc3339 : time.Time → String)
    (finishedWorkflows : List FinishedWorkflow) : List slack.Block :=
  finishedWorkflows.foldl
    (fun blocks workflow =>
      blocks ++ [slack.NewSectionBlock
        (some ⟨slack.MarkdownType, summaryLine rfc3339 workflow⟩) [] none])
    []

/-- The function `handleSlashCommand`; it reads the globals and returns the calls it made. -/
def handleSlashCommand (rfc3339 : time.Time → String) (S : World)
    (evt : socketmode.Event) (workflows : GoMap Workflow) : Except Panic (List Effect) :=
  match evt.Data with
  | socketmode.Data.slashCommand cmd =>
    if cmd.Command = "/summary" then do
      let blocks := summaryBlocks rfc3339 S.finishedWorkflows
      let req ← deref evt.Request
      pure [Effect.ack req (Payload.blocksMap blocks)]
    else if cmd.Command = "/workflow" then
      match workflows.get? cmd.Text with
      | none => do
        let payload := simplePayload ("could not find workflow " ++ cmd.Text)
        let req ← deref evt.Request
        pure [Effect.ack req payload]
      | some workflow =>
        match S.messages.get? workflow.File with
        | none => pure [Effect.log "Message %s is not available"]
        | some msg => do
          let req ← deref evt.Request
          pure [Effect.ack req (Payload.message msg)]
    else pure []
  | _ => pure []

/-- The registry loop of `Run`: `workflows[w.Name] = w` for each configured workflow. -/
def buildWorkflows (configured : List Workflow) : GoMap Workflow :=
  configured.foldl (fun workflows w => workflows.set w.Name w) GoMap.empty

/-- The block-actions branch of the interactive case of the loop body. -/
def handleBlockActions (env : Env) (S : World) (evt : socketmode.Event)
    (callback : slack.InteractionCallback) : Except Panic (World × List Effect) := do
  let a0 ← index callback.ActionCallback.BlockActions 0
  let S1 : World :=
    { S with finishedWorkflows :=
        S.finishedWorkflows ++ [⟨callback.User.Name, env.now, "", a0.Value⟩] }
  let a1 ← index callback.ActionCallback.BlockActions 0
  let e1 := [Effect.log a1.Value]
  let a2 ← index callback.ActionCallback.BlockActions 0
  match S1.messages.get? a2.ActionID with
  | none => do
    let a3 ← index callback.ActionCallback.BlockActions 0
    let payload := simplePayload ("could not find message callback " ++ a3.Value)
    let req ← deref evt.Request
    pure (S1, e1 ++ [Effect.log "could not find %+v", Effect.ack req payload])
  | some msg => do
    let req ← deref evt.Request
    let e2 := e1 ++ [Effect.ack req Payload.emptyStruct,
                     Effect.postMessage callback.Channel.ID msg.Blocks]
    match env.postErr with
    | some _ => pure (S1, e2 ++ [Effect.log "error sending message: %v"])
    | none => pure (S1, e2)

/-- One iteration of the loop `for evt := range client.Events` of `Run`. -/
def handleEvent (rfc3339 : time.Time → String) (workflows : GoMap Workflow)
    (env : Env) (S : World) (evt : socketmode.Event) : Except Panic (World × List Effect) :=
  if evt.Type_ = socketmode.EventTypeConnecting then
    pure (S, [Effect.log "Connecting to Slack with Socket Mode..."])
  else if evt.Type_ = socketmode.EventTypeConnectionError then
    pure (S, [Effect.log "Connection failed. Retrying later..."])
  else if evt.Type_ = socketmode.EventTypeConnected then
    pure (S, [Effect.log "Connected to Slack with Socket Mode."])
  else if evt.Type_ = socketmode.EventTypeEventsAPI then
    match evt.Data with
    | socketmode.Data.eventsAPIEvent _ => do
      let req ← deref evt.Request
      pure (S, [Effect.log "Event received: %+v\n", Effect.ack req Payload.absent])
    | _ => pure (S, [])
  else if evt.Type_ = socketmode.EventTypeInteractive then
    match evt.Data with
    | socketmode.Data.interactionCallback callback =>
      if callback.Type_ = slack.InteractionTypeBlockActions then
        handleBlockActions env S evt callback
      else do
        let req ← deref evt.Request
        pure (S, [Effect.ack req Payload.nilInterface])
    | _ => pure (S, [])
  else if evt.Type_ = socketmode.EventTypeSlashCommand then do
    let effects ← handleSlashCommand rfc3339 S evt workflows
    pure (S, effects)
  else
    pure (S, [Effect.log "Unexpected event type received: %s\n"])

/-- The event loop of `Run` over a finite stream of events. -/
def eventLoop (rfc3339 : time.Time → String) (workflows : GoMap Workflow) :
    List (Env × socketmode.Event) → World → Except Panic (World × List Effect)
  | [], S => pure (S, [])
  | (env, evt) :: rest, S => do
    let r1 ← handleEvent rfc3339 workflows env S evt
    let r2 ← eventLoop rfc3339 workflows rest r1.1
    pure (r2.1, r1.2 ++ r2.2)

/-- The function `Run` after the templates are loaded: registry, then the loop. -/
def Run (rfc3339 : time.Time → String) (configured : List Workflow)
    (loaded : GoMap slack.Message) (events : List (Env × socketmode.Event)) :
    Except Panic (World × List Effect) :=
  eventLoop rfc3339 (buildWorkflows configured) events ⟨loaded, []⟩

/-! ## Observations on a trace -/

/-- The acknowledgment calls of a trace, in order. -/
def acks : List Effect → List (socketmode.Request × Payload)
  | [] => []
  | Effect.ack req payload :: rest => (req, payload) :: acks rest
  | _ :: rest => acks rest

/-- The post-message calls of a trace, in order. -/
def posts : List Effect → List (String × List slack.Block)
  | [] => []
  | Effect.postMessage ch blocks :: rest => (ch, blocks) :: posts rest
  | _ :: rest => posts rest


/-! ## Vocabulary of the specification -/

/-- An event of a kind the transport expects acknowledged: a generic-API event,
a command event or an interactive-action event. -/
def AckExpected (evt : socketmode.Event) : Prop :=
  (evt.Type_ = socketmode.EventTypeEventsAPI ∧
      ∃ e, evt.Data = socketmode.Data.eventsAPIEvent e) ∨
  (evt.Type_ = socketmode.EventTypeSlashCommand ∧
      ∃ cmd, evt.Data = socketmode.Data.slashCommand cmd) ∨
  (evt.Type_ = socketmode.EventTypeInteractive ∧
      ∃ cb, evt.Data = socketmode.Data.interactionCallback cb)

/-- An interactive event whose callback is of the block-actions subtype. -/
def isBlockActions (evt : socketmode.Event) : Bool :=
  match evt.Data with
  | socketmode.Data.interactionCallback cb =>
    evt.Type_ == socketmode.EventTypeInteractive &&
      cb.Type_ == slack.InteractionTypeBlockActions
  | _ => false

/-- A block-action callback carries at least one action. -/
def HasFirstAction (evt : socketmode.Event) : Prop :=
  ∀ cb, evt.Data = socketmode.Data.interactionCallback cb →
    cb.Type_ = slack.InteractionTypeBlockActions → cb.ActionCallback.BlockActions ≠ []

/-- The command events left without acknowledgment: an unrecognised command
identifier, or `/workflow` naming a registered workflow whose file is not in
the template store. -/
def SilentCommand (workflows : GoMap Workflow) (S : World) (evt : socketmode.Event) : Prop :=
  evt.Type_ = socketmode.EventTypeSlashCommand ∧
  ∃ cmd, evt.Data = socketmode.Data.slashCommand cmd ∧
    ((cmd.Command ≠ "/summary" ∧ cmd.Command ≠ "/workflow") ∨
     (cmd.Command = "/workflow" ∧
        ∃ w, workflows.get? cmd.Text = some w ∧ S.messages.get? w.File = none))

/-- The ledger grows by the records of the block-action events, in event order. -/
def recordsOf : List (Env × socketmode.Event) → List FinishedWorkflow
  | [] => []
  | (env, evt) :: rest =>
    match evt.Data with
    | socketmode.Data.interactionCallback cb =>
      if isBlockActions evt then
        match cb.ActionCallback.BlockActions with
        | a :: _ => ⟨cb.User.Name, env.now, "", a.Value⟩ :: recordsOf rest
        | [] => recordsOf rest
      else recordsOf rest
    | _ => recordsOf rest

/-! ## Concrete inputs -/

/-- A stand-in for the RFC3339 rendering, fixed on two instants. -/
def demoRFC3339 : time.Time → String :=
  fun t => if t.unixNano = 0 then "1970-01-01T00:00:00Z" else "2024-05-06T07:08:09Z"

def demoEnv : Env := ⟨⟨0⟩, none⟩

def failingPostEnv : Env := ⟨⟨1⟩, some "channel_not_found"⟩

def demoRequest : socketmode.Request := ⟨"envelope-1"⟩

def step2Message : slack.Message := ⟨[slack.Block.other "divider" ""], "step two"⟩

/-- A template store holding the single template `step2`. -/
def demoStore : GoMap slack.Message := ⟨[("step2", step2Message)]⟩

/-- A registry with `onboarding` resolving to `step2` and `broken` to a missing file. -/
def demoRegistry : GoMap Workflow :=
  buildWorkflows [⟨"onboarding", "step2"⟩, ⟨"broken", "missing.json"⟩]

def aliceRecord : FinishedWorkflow := ⟨"alice", ⟨0⟩, "", "optionA"⟩

def step2Action : slack.BlockAction := ⟨"step2", "optionA"⟩

def step2Callback : slack.InteractionCallback :=
  ⟨slack.InteractionTypeBlockActions, ⟨"alice"⟩, ⟨"C42"⟩, ⟨[step2Action]⟩⟩

def step2Event : socketmode.Event :=
  ⟨socketmode.EventTypeInteractive, socketmode.Data.interactionCallback step2Callback,
    some demoRequest⟩

/-- A block-actions callback whose action list is empty. -/
def zeroActionCallback : slack.InteractionCallback :=
  ⟨slack.InteractionTypeBlockActions, ⟨"bob"⟩, ⟨"C42"⟩, ⟨[]⟩⟩

def zeroActionEvent : socketmode.Event :=
  ⟨socketmode.EventTypeInteractive, socketmode.Data.interactionCallback zeroActionCallback,
    some demoRequest⟩

def unknownCommandEvent : socketmode.Event :=
  ⟨socketmode.EventTypeSlashCommand, socketmode.Data.slashCommand ⟨"/help", ""⟩,
    some demoRequest⟩

def brokenWorkflowEvent : socketmode.Event :=
  ⟨socketmode.EventTypeSlashCommand, socketmode.Data.slashCommand ⟨"/workflow", "broken"⟩,
    some demoRequest⟩

/-! ## Basic facts about the model -/

section Basics

open socketmode slack

@[simp] theorem index_zero_cons {α : Type} (a : α) (l : List α) :
    index (a :: l) 0 = Except.ok a := rfl

@[simp] theorem index_zero_nil {α : Type} :
    index ([] : List α) 0 = Except.error (Panic.indexOutOfRange 0 0) := rfl

theorem acks_append (xs ys : List Effect) : acks (xs ++ ys) = acks xs ++ acks ys := by
  induction xs with
  | nil => rfl
  | cons x xs ih => cases x <;> simp [acks, ih]

theorem posts_append (xs ys : List Effect) : posts (xs ++ ys) = posts xs ++ posts ys := by
  induction xs with
  | nil => rfl
  | cons x xs ih => cases x <;> simp [posts, ih]

theorem summaryBlocks_foldl (rfc3339 : time.Time → String) (l : List FinishedWorkflow)
    (acc : List Block) :
    l.foldl (fun blocks workflow =>
      blocks ++ [NewSectionBlock
        (some ⟨MarkdownType, summaryLine rfc3339 workflow⟩) [] none]) acc
    = acc ++ l.map (fun workflow => NewSectionBlock
        (some ⟨MarkdownType, summaryLine rfc3339 workflow⟩) [] none) := by
  induction l generalizing acc with
  | nil => simp
  | cons w l ih => simp [List.foldl_cons, ih]

theorem summaryBlocks_eq_map (rfc3339 : time.Time → String) (l : List FinishedWorkflow) :
    summaryBlocks rfc3339 l = l.map (fun workflow => NewSectionBlock
        (some ⟨MarkdownType, summaryLine rfc3339 workflow⟩) [] none) := by
  simp [summaryBlocks, summaryBlocks_foldl]

theorem GoMap.get?_empty {V : Type} (k : String) : (GoMap.empty : GoMap V).get? k = none := rfl

theorem GoMap.get?_set_self {V : Type} (m : GoMap V) (k : String) (v : V) :
    (m.set k v).get? k = some v := by
  simp [GoMap.get?, GoMap.set]

theorem GoMap.get?_set_other {V : Type} (m : GoMap V) (k k' : String) (v : V) (h : k ≠ k') :
    (m.set k v).get? k' = m.get? k' := by
  have hp : ∀ l : List (String × V),
      (l.filter (fun e => e.1 != k)).find? (fun e => e.1 == k') = l.find? (fun e => e.1 == k') := by
    intro l
    induction l with
    | nil => rfl
    | cons e l ih =>
      by_cases hek : e.1 = k
      · have hek' : e.1 ≠ k' := fun he => h (hek.symm.trans he)
        simp [List.filter_cons, List.find?_cons, hek, hek', ih, h]
      · by_cases hek' : e.1 = k'
        · have hk' : k' ≠ k := fun hc => h hc.symm
          simp [List.filter_cons, List.find?_cons, hek', hk']
        · simp [List.filter_cons, List.find?_cons, hek, hek', ih]
  have hk : (k == k') = false := by simpa using h
  simp only [GoMap.get?, GoMap.set, List.find?_cons, hk, hp]

theorem foldl_set_get? (ws : List Workflow) (m : GoMap Workflow) (n : String) :
    (ws.foldl (fun workflows w => workflows.set w.Name w) m).get? n
      = (ws.reverse.find? (fun w => w.Name == n)).or (m.get? n) := by
  induction ws generalizing m with
  | nil => simp
  | cons w ws ih =>
    rw [List.foldl_cons, ih, List.reverse_cons, List.find?_append]
    cases hfind : ws.reverse.find? (fun w => w.Name == n) with
    | some x => simp
    | none =>
      by_cases hw : w.Name = n
      · subst hw
        simp [GoMap.get?_set_self]
      · simp [GoMap.get?_set_other _ _ _ _ hw, hw]

/-- Lookup in the registry is the search for the name from the end of the configured list. -/
theorem buildWorkflows_get? (ws : List Workflow) (n : String) :
    (buildWorkflows ws).get? n = ws.reverse.find? (fun w => w.Name == n) := by
  simp [buildWorkflows, foldl_set_get?, GoMap.get?_empty]

end Basics

/-! ## The branches of the loop body -/

section Branches

open socketmode slack

theorem handleEvent_eventsAPI (rfc3339 : time.Time → String) (workflows : GoMap Workflow)
    (env : Env) (S : World) (e : slackevents.EventsAPIEvent) (r : Request) :
    handleEvent rfc3339 workflows env S ⟨EventTypeEventsAPI, Data.eventsAPIEvent e, some r⟩
      = Except.ok (S, [Effect.log "Event received: %+v\n", Effect.ack r Payload.absent]) := by
  simp [handleEvent, deref, EventTypeEventsAPI, EventTypeConnecting, EventTypeConnectionError,
    EventTypeConnected, bind, Except.bind, pure, Except.pure]

theorem handleEvent_interactive_other (rfc3339 : time.Time → String)
    (workflows : GoMap Workflow) (env : Env) (S : World) (cb : InteractionCallback)
    (r : Request) (hty : cb.Type_ ≠ InteractionTypeBlockActions) :
    handleEvent rfc3339 workflows env S ⟨EventTypeInteractive, Data.interactionCallback cb, some r⟩
      = Except.ok (S, [Effect.ack r Payload.nilInterface]) := by
  simp [handleEvent, deref, hty, EventTypeInteractive, EventTypeEventsAPI, EventTypeConnecting,
    EventTypeConnectionError, EventTypeConnected, bind, Except.bind, pure, Except.pure]

theorem handleEvent_blockActions_found (rfc3339 : time.Time → String)
    (workflows : GoMap Workflow) (env : Env) (S : World) (cb : InteractionCallback)
    (r : Request) (a : BlockAction) (rest : List BlockAction) (msg : Message)
    (hty : cb.Type_ = InteractionTypeBlockActions)
    (hacts : cb.ActionCallback.BlockActions = a :: rest)
    (hmsg : S.messages.get? a.ActionID = some msg) :
    handleEvent rfc3339 workflows env S ⟨EventTypeInteractive, Data.interactionCallback cb, some r⟩
      = Except.ok
          (⟨S.messages, S.finishedWorkflows ++ [⟨cb.User.Name, env.now, "", a.Value⟩]⟩,
           [Effect.log a.Value, Effect.ack r Payload.emptyStruct,
            Effect.postMessage cb.Channel.ID msg.Blocks]
             ++ (if env.postErr.isSome then [Effect.log "error sending message: %v"] else [])) := by
  simp [handleEvent, handleBlockActions, hty, hacts, hmsg, deref, EventTypeInteractive,
    EventTypeConnecting, EventTypeConnectionError, EventTypeConnected, EventTypeEventsAPI,
    bind, Except.bind, pure, Except.pure]
  cases env.postErr <;> simp

theorem handleEvent_blockActions_missing (rfc3339 : time.Time → String)
    (workflows : GoMap Workflow) (env : Env) (S : World) (cb : InteractionCallback)
    (r : Request) (a : BlockAction) (rest : List BlockAction)
    (hty : cb.Type_ = InteractionTypeBlockActions)
    (hacts : cb.ActionCallback.BlockActions = a :: rest)
    (hmsg : S.messages.get? a.ActionID = none) :
    handleEvent rfc3339 workflows env S ⟨EventTypeInteractive, Data.interactionCallback cb, some r⟩
      = Except.ok
          (⟨S.messages, S.finishedWorkflows ++ [⟨cb.User.Name, env.now, "", a.Value⟩]⟩,
           [Effect.log a.Value, Effect.log "could not find %+v",
            Effect.ack r (simplePayload ("could not find message callback " ++ a.Value))]) := by
  simp [handleEvent, handleBlockActions, hty, hacts, hmsg, deref, EventTypeInteractive,
    EventTypeConnecting, EventTypeConnectionError, EventTypeConnected, EventTypeEventsAPI,
    bind, Except.bind, pure, Except.pure]

theorem handleEvent_blockActions_empty (rfc3339 : time.Time → String)
    (workflows : GoMap Workflow) (env : Env) (S : World) (cb : InteractionCallback)
    (req : Option Request) (hty : cb.Type_ = InteractionTypeBlockActions)
    (hacts : cb.ActionCallback.BlockActions = []) :
    handleEvent rfc3339 workflows env S ⟨EventTypeInteractive, Data.interactionCallback cb, req⟩
      = Except.error (Panic.indexOutOfRange 0 0) := by
  simp [handleEvent, handleBlockActions, hty, hacts, EventTypeInteractive,
    EventTypeConnecting, EventTypeConnectionError, EventTypeConnected, EventTypeEventsAPI,
    bind, Except.bind]

theorem handleEvent_slash (rfc3339 : time.Time → String) (workflows : GoMap Workflow)
    (env : Env) (S : World) (data : Data) (req : Option Request) :
    handleEvent rfc3339 workflows env S ⟨EventTypeSlashCommand, data, req⟩
      = (handleSlashCommand rfc3339 S ⟨EventTypeSlashCommand, data, req⟩ workflows).map
          (fun effects => (S, effects)) := by
  simp [handleEvent, EventTypeSlashCommand, EventTypeInteractive,
    EventTypeConnecting, EventTypeConnectionError, EventTypeConnected, EventTypeEventsAPI,
    bind, Except.bind, pure, Except.pure, Except.map]

theorem handleEvent_summary (rfc3339 : time.Time → String) (workflows : GoMap Workflow)
    (env : Env) (S : World) (text : String) (r : Request) :
    handleEvent rfc3339 workflows env S
        ⟨EventTypeSlashCommand, Data.slashCommand ⟨"/summary", text⟩, some r⟩
      = Except.ok (S, [Effect.ack r (Payload.blocksMap
          (S.finishedWorkflows.map (fun workflow => NewSectionBlock
            (some ⟨MarkdownType, summaryLine rfc3339 workflow⟩) [] none)))]) := by
  simp [handleEvent_slash, handleSlashCommand, deref, summaryBlocks_eq_map,
    bind, Except.bind, pure, Except.pure, Except.map]

theorem handleEvent_workflow_unknown (rfc3339 : time.Time → String)
    (workflows : GoMap Workflow) (env : Env) (S : World) (s : String) (r : Request)
    (hmiss : workflows.get? s = none) :
    handleEvent rfc3339 workflows env S
        ⟨EventTypeSlashCommand, Data.slashCommand ⟨"/workflow", s⟩, some r⟩
      = Except.ok (S, [Effect.ack r (simplePayload ("could not find workflow " ++ s))]) := by
  simp [handleEvent_slash, handleSlashCommand, deref, hmiss,
    bind, Except.bind, pure, Except.pure, Except.map]

theorem handleEvent_workflow_found (rfc3339 : time.Time → String)
    (workflows : GoMap Workflow) (env : Env) (S : World) (s : String) (r : Request)
    (w : Workflow) (msg : Message) (hw : workflows.get? s = some w)
    (hmsg : S.messages.get? w.File = some msg) :
    handleEvent rfc3339 workflows env S
        ⟨EventTypeSlashCommand, Data.slashCommand ⟨"/workflow", s⟩, some r⟩
      = Except.ok (S, [Effect.ack r (Payload.message msg)]) := by
  simp [handleEvent_slash, handleSlashCommand, deref, hw, hmsg,
    bind, Except.bind, pure, Except.pure, Except.map]

theorem handleEvent_workflow_silent (rfc3339 : time.Time → String)
    (workflows : GoMap Workflow) (env : Env) (S : World) (s : String) (req : Option Request)
    (w : Workflow) (hw : workflows.get? s = some w)
    (hmsg : S.messages.get? w.File = none) :
    handleEvent rfc3339 workflows env S
        ⟨EventTypeSlashCommand, Data.slashCommand ⟨"/workflow", s⟩, req⟩
      = Except.ok (S, [Effect.log "Message %s is not available"]) := by
  simp [handleEvent_slash, handleSlashCommand, hw, hmsg, pure, Except.pure, Except.map]

theorem handleEvent_command_other (rfc3339 : time.Time → String)
    (workflows : GoMap Workflow) (env : Env) (S : World) (cmd : SlashCommand)
    (req : Option Request) (h1 : cmd.Command ≠ "/summary") (h2 : cmd.Command ≠ "/workflow") :
    handleEvent rfc3339 workflows env S ⟨EventTypeSlashCommand, Data.slashCommand cmd, req⟩
      = Except.ok (S, []) := by
  simp [handleEvent_slash, handleSlashCommand, h1, h2, pure, Except.pure, Except.map]

end Branches

section Ledger

open socketmode slack

theorem handleSlashCommand_ok_or_nil (rfc3339 : time.Time → String) (S : World)
    (evt : Event) (workflows : GoMap Workflow) (r : Request) (hreq : evt.Request = some r) :
    ∃ effects, handleSlashCommand rfc3339 S evt workflows = Except.ok effects := by
  unfold handleSlashCommand
  split
  · split_ifs
    · simp [hreq, deref, bind, Except.bind, pure, Except.pure]
    · split
      · simp [hreq, deref, bind, Except.bind, pure, Except.pure]
      · split <;> simp [hreq, deref, bind, Except.bind, pure, Except.pure]
    · exact ⟨_, rfl⟩
  · exact ⟨_, rfl⟩

theorem handleEvent_other_world (rfc3339 : time.Time → String) (workflows : GoMap Workflow)
    (env : Env) (S S' : World) (evt : Event) (effects : List Effect)
    (hba : isBlockActions evt = false)
    (h : handleEvent rfc3339 workflows env S evt = Except.ok (S', effects)) : S' = S := by
  obtain ⟨ty, data, req⟩ := evt
  unfold handleEvent at h
  simp only at h
  split_ifs at h with h1 h2 h3 h4 h5 h6
  · cases h; rfl
  · cases h; rfl
  · cases h; rfl
  · cases data <;> cases req <;> simp [deref, bind, Except.bind, pure, Except.pure] at h <;>
      exact h.1.symm
  · cases data with
    | interactionCallback cb =>
      by_cases hty : cb.Type_ = InteractionTypeBlockActions
      · simp [isBlockActions, h5, hty] at hba
      · cases req <;> simp [hty, deref, bind, Except.bind, pure, Except.pure] at h
        exact h.1.symm
    | _ => simp [pure, Except.pure] at h; exact h.1.symm
  · cases hs : handleSlashCommand rfc3339 S ⟨ty, data, req⟩ workflows with
    | error e => simp [hs, bind, Except.bind] at h
    | ok v => simp [hs, bind, Except.bind, pure, Except.pure] at h; exact h.1.symm
  · cases h; rfl

theorem handleEvent_blockActions_world (rfc3339 : time.Time → String)
    (workflows : GoMap Workflow) (env : Env) (S S' : World) (evt : Event)
    (effects : List Effect) (hba : isBlockActions evt = true)
    (h : handleEvent rfc3339 workflows env S evt = Except.ok (S', effects)) :
    ∃ cb a rest, evt.Data = Data.interactionCallback cb ∧
      cb.ActionCallback.BlockActions = a :: rest ∧
      S' = ⟨S.messages, S.finishedWorkflows ++ [⟨cb.User.Name, env.now, "", a.Value⟩]⟩ := by
  obtain ⟨ty, data, req⟩ := evt
  cases data with
  | interactionCallback cb =>
    simp [isBlockActions] at hba
    obtain ⟨hty, hcb⟩ := hba
    subst hty
    cases hacts : cb.ActionCallback.BlockActions with
    | nil =>
      rw [handleEvent_blockActions_empty _ _ _ _ _ _ hcb hacts] at h
      cases h
    | cons a rest =>
      refine ⟨cb, a, rest, rfl, hacts, ?_⟩
      cases req with
      | none =>
        cases hmsg : S.messages.get? a.ActionID <;>
          simp [handleEvent, handleBlockActions, hcb, hacts, hmsg, deref, EventTypeInteractive,
            EventTypeConnecting, EventTypeConnectionError, EventTypeConnected,
            EventTypeEventsAPI, bind, Except.bind] at h
      | some r =>
        cases hmsg : S.messages.get? a.ActionID with
        | none =>
          rw [handleEvent_blockActions_missing _ _ _ _ _ _ _ _ hcb hacts hmsg] at h
          cases h; rfl
        | some msg =>
          rw [handleEvent_blockActions_found _ _ _ _ _ _ _ _ _ hcb hacts hmsg] at h
          cases h; rfl
  | eventsAPIEvent e => simp [isBlockActions] at hba
  | slashCommand c => simp [isBlockActions] at hba
  | other => simp [isBlockActions] at hba

theorem recordsOf_single_of_not (env : Env) (evt : Event) (hba : isBlockActions evt = false) :
    recordsOf [(env, evt)] = [] := by
  obtain ⟨ty, data, req⟩ := evt
  cases data <;> simp [recordsOf, hba]

theorem recordsOf_cons (x : Env × Event) (rest : List (Env × Event)) :
    recordsOf (x :: rest) = recordsOf [x] ++ recordsOf rest := by
  obtain ⟨env, ty, data, req⟩ := x
  cases data with
  | interactionCallback cb =>
    simp only [recordsOf]
    split_ifs
    · cases cb.ActionCallback.BlockActions <;> simp
    · simp
  | eventsAPIEvent e => simp [recordsOf]
  | slashCommand c => simp [recordsOf]
  | other => simp [recordsOf]

/-- Handling one event never touches the template store, and extends the ledger by
exactly the record of the event (none unless it is a block-action event). -/
theorem handleEvent_world (rfc3339 : time.Time → String) (workflows : GoMap Workflow)
    (env : Env) (S S' : World) (evt : Event) (effects : List Effect)
    (h : handleEvent rfc3339 workflows env S evt = Except.ok (S', effects)) :
    S'.messages = S.messages ∧
      S'.finishedWorkflows = S.finishedWorkflows ++ recordsOf [(env, evt)] := by
  cases hba : isBlockActions evt with
  | false =>
    have hS := handleEvent_other_world _ _ _ _ _ _ _ hba h
    subst hS
    simp [recordsOf_single_of_not env evt hba]
  | true =>
    obtain ⟨cb, a, rest, hd, hacts, hS⟩ := handleEvent_blockActions_world _ _ _ _ _ _ _ hba h
    obtain ⟨ty, data, req⟩ := evt
    simp only at hd
    subst hd
    subst hS
    simp [recordsOf, hba, hacts]

/-- Over a whole stream that is handled to the end, the ledger is extended by the
records of the block-action events, in event order, and nothing else changes. -/
theorem eventLoop_world (rfc3339 : time.Time → String) (workflows : GoMap Workflow)
    (events : List (Env × Event)) (S S' : World) (effects : List Effect)
    (h : eventLoop rfc3339 workflows events S = Except.ok (S', effects)) :
    S'.messages = S.messages ∧
      S'.finishedWorkflows = S.finishedWorkflows ++ recordsOf events := by
  induction events generalizing S effects with
  | nil =>
    simp [eventLoop, pure, Except.pure] at h
    simp [← h.1, recordsOf]
  | cons x rest ih =>
    obtain ⟨env, evt⟩ := x
    simp only [eventLoop, bind, Except.bind] at h
    cases h1 : handleEvent rfc3339 workflows env S evt with
    | error e => simp [h1] at h
    | ok r1 =>
      obtain ⟨S1, e1⟩ := r1
      simp only [h1] at h
      cases h2 : eventLoop rfc3339 workflows rest S1 with
      | error e => simp [h2] at h
      | ok r2 =>
        obtain ⟨S2, e2⟩ := r2
        simp [h2, pure, Except.pure] at h
        obtain ⟨hS, _⟩ := h
        subst hS
        obtain ⟨hm1, hl1⟩ := handleEvent_world _ _ _ _ _ _ _ h1
        obtain ⟨hm2, hl2⟩ := ih S1 e2 h2
        refine ⟨hm2.trans hm1, ?_⟩
        rw [hl2, hl1, recordsOf_cons (env, evt) rest, List.append_assoc]

/-- Handling completes for every event that carries its request envelope and, when it
is a block-action callback, at least one action. -/
theorem handleEvent_completes (rfc3339 : time.Time → String) (workflows : GoMap Workflow)
    (env : Env) (S : World) (evt : Event) (r : Request) (hreq : evt.Request = some r)
    (hfirst : HasFirstAction evt) :
    ∃ S' effects, handleEvent rfc3339 workflows env S evt = Except.ok (S', effects) := by
  obtain ⟨ty, data, req⟩ := evt
  simp only at hreq
  subst hreq
  unfold handleEvent
  simp only
  split_ifs with h1 h2 h3 h4 h5 h6
  · exact ⟨_, _, rfl⟩
  · exact ⟨_, _, rfl⟩
  · exact ⟨_, _, rfl⟩
  · cases data <;> simp [deref, bind, Except.bind, pure, Except.pure]
  · cases data with
    | interactionCallback cb =>
      by_cases hty : cb.Type_ = InteractionTypeBlockActions
      · cases hacts : cb.ActionCallback.BlockActions with
        | nil => exact absurd hacts (hfirst cb rfl hty)
        | cons a rest =>
          cases hmsg : S.messages.get? a.ActionID with
          | none =>
            simp [handleBlockActions, hty, hacts, hmsg, deref, bind, Except.bind, pure,
              Except.pure]
          | some msg =>
            cases hp : env.postErr <;>
              simp [handleBlockActions, hty, hacts, hmsg, hp, deref, bind, Except.bind, pure,
                Except.pure]
      · simp [hty, deref, bind, Except.bind, pure, Except.pure]
    | eventsAPIEvent e => simp [pure, Except.pure]
    | slashCommand c => simp [pure, Except.pure]
    | other => simp [pure, Except.pure]
  · obtain ⟨effects, hs⟩ := handleSlashCommand_ok_or_nil rfc3339 S ⟨ty, data, some r⟩ workflows r rfl
    simp [hs, bind, Except.bind, pure, Except.pure]
  · exact ⟨_, _, rfl⟩

/-- A stream of events that all carry their request envelope and, for block-action
callbacks, at least one action is handled to the end; the ledger then holds one
record per block-action event. -/
theorem eventLoop_completes (rfc3339 : time.Time → String) (workflows : GoMap Workflow)
    (events : List (Env × Event)) (S : World)
    (hreq : ∀ x ∈ events, ∃ r, x.2.Request = some r)
    (hfirst : ∀ x ∈ events, HasFirstAction x.2) :
    ∃ S' effects, eventLoop rfc3339 workflows events S = Except.ok (S', effects) := by
  induction events generalizing S with
  | nil => exact ⟨_, _, rfl⟩
  | cons x rest ih =>
    obtain ⟨env, evt⟩ := x
    obtain ⟨r, hr⟩ := hreq (env, evt) (List.mem_cons_self _ _)
    obtain ⟨S1, e1, h1⟩ := handleEvent_completes rfc3339 workflows env S evt r hr
      (hfirst (env, evt) (List.mem_cons_self _ _))
    obtain ⟨S2, e2, h2⟩ := ih S1 (fun x hx => hreq x (List.mem_cons_of_mem _ hx))
      (fun x hx => hfirst x (List.mem_cons_of_mem _ hx))
    exact ⟨S2, e1 ++ e2, by simp [eventLoop, h1, h2, bind, Except.bind, pure, Except.pure]⟩

theorem recordsOf_length (events : List (Env × Event))
    (hfirst : ∀ x ∈ events, HasFirstAction x.2) :
    (recordsOf events).length = events.countP (fun x => isBlockActions x.2) := by
  induction events with
  | nil => rfl
  | cons x rest ih =>
    have ih' := ih (fun y hy => hfirst y (List.mem_cons_of_mem _ hy))
    have hx := hfirst x (List.mem_cons_self _ _)
    obtain ⟨env, ty, data, req⟩ := x
    cases data with
    | interactionCallback cb =>
      cases hba : isBlockActions ⟨ty, Data.interactionCallback cb, req⟩ with
      | false => simp [recordsOf, hba, ih', List.countP_cons]
      | true =>
        have hty : cb.Type_ = InteractionTypeBlockActions := by
          simp [isBlockActions] at hba
          exact hba.2
        cases hacts : cb.ActionCallback.BlockActions with
        | nil => exact absurd hacts (hx cb rfl hty)
        | cons a l => simp [recordsOf, hba, hacts, ih', List.countP_cons]
    | eventsAPIEvent e => simp [recordsOf, isBlockActions, ih', List.countP_cons]
    | slashCommand c => simp [recordsOf, isBlockActions, ih', List.countP_cons]
    | other => simp [recordsOf, isBlockActions, ih', List.countP_cons]

end Ledger

/-! ## The scenarios of the specification, evaluated -/

section Scenarios

open socketmode slack

/-- Scenario 1: `/summary` over the empty ledger acknowledges with zero blocks. -/
theorem scenario_summary_empty :
    handleEvent demoRFC3339 demoRegistry demoEnv ⟨demoStore, []⟩
        ⟨EventTypeSlashCommand, Data.slashCommand ⟨"/summary", ""⟩, some demoRequest⟩
      = Except.ok (⟨demoStore, []⟩, [Effect.ack demoRequest (Payload.blocksMap [])]) := rfl

/-- Scenario 2: `/summary` after one record of alice renders her line. -/
theorem scenario_summary_alice :
    handleEvent demoRFC3339 demoRegistry demoEnv ⟨demoStore, [aliceRecord]⟩
        ⟨EventTypeSlashCommand, Data.slashCommand ⟨"/summary", ""⟩, some demoRequest⟩
      = Except.ok (⟨demoStore, [aliceRecord]⟩, [Effect.ack demoRequest (Payload.blocksMap
          [Block.sectionBlock "section"
            (some ⟨"mrkdwn", "alice | 1970-01-01T00:00:00Z | selected optionA"⟩) [] none])]) := by
  rw [handleEvent_summary]
  simp [summaryLine, demoRFC3339, aliceRecord, NewSectionBlock, MarkdownType, MBTSection]

/-- Scenario 3: `/workflow onboarding` over an empty registry. -/
theorem scenario_unknown_workflow :
    handleEvent demoRFC3339 GoMap.empty demoEnv ⟨demoStore, []⟩
        ⟨EventTypeSlashCommand, Data.slashCommand ⟨"/workflow", "onboarding"⟩,
          some demoRequest⟩
      = Except.ok (⟨demoStore, []⟩, [Effect.ack demoRequest (Payload.blocksMap
          [Block.sectionBlock "section"
            (some ⟨"mrkdwn", "could not find workflow onboarding"⟩) [] none])]) := by
  rw [handleEvent_workflow_unknown demoRFC3339 GoMap.empty demoEnv _ "onboarding" demoRequest rfl]
  simp [simplePayload, NewSectionBlock, MarkdownType, MBTSection]

/-- Scenarios 4 and 5 in one stream: `step2` first missing from the store, then present. -/
theorem scenario_step2_stream :
    (eventLoop demoRFC3339 demoRegistry [(demoEnv, step2Event)] ⟨GoMap.empty, []⟩).map
        (fun r => (r.1.finishedWorkflows.length, (acks r.2).length, (posts r.2).length))
      = Except.ok (1, 1, 0) ∧
    (eventLoop demoRFC3339 demoRegistry [(demoEnv, step2Event), (failingPostEnv, step2Event)]
        ⟨demoStore, []⟩).map
        (fun r => (r.1.finishedWorkflows.length, (acks r.2).length, posts r.2))
      = Except.ok (2, 2, [("C42", step2Message.Blocks), ("C42", step2Message.Blocks)]) :=
  ⟨rfl, rfl⟩

end Scenarios

/-! ## The claims -/

section Claims

open socketmode slack

/-- C1, as stated, fails: a command event with an unrecognised identifier, and a
`/workflow` command naming a registered workflow whose file is missing from the
template store, are both handled without any acknowledgment. -/
theorem C1_counterexample_unacknowledged_commands :
    (AckExpected unknownCommandEvent ∧
      ∃ effects, handleEvent demoRFC3339 demoRegistry demoEnv ⟨demoStore, []⟩
          unknownCommandEvent = Except.ok (⟨demoStore, []⟩, effects) ∧
        (acks effects).length = 0) ∧
    (AckExpected brokenWorkflowEvent ∧
      ∃ effects, handleEvent demoRFC3339 demoRegistry demoEnv ⟨demoStore, []⟩
          brokenWorkflowEvent = Except.ok (⟨demoStore, []⟩, effects) ∧
        (acks effects).length = 0) := by
  refine ⟨⟨Or.inr (Or.inl ⟨rfl, _, rfl⟩), [], rfl, rfl⟩,
    ⟨Or.inr (Or.inl ⟨rfl, _, rfl⟩), [Effect.log "Message %s is not available"], rfl, rfl⟩⟩

/-- C1, amended: an event of an acknowledged kind that carries its request envelope
and, when it is a block-action callback, at least one action, is handled to the end;
handling issues no acknowledgment when the event is a command left silent (an
unrecognised identifier, or `/workflow` resolving to a missing template), and exactly
one acknowledgment, on the event's own request, in every other case. -/
theorem C1_amended_one_ack_outside_silent_commands (rfc3339 : time.Time → String)
    (workflows : GoMap Workflow) (env : Env) (S : World) (evt : Event) (r : Request)
    (hkind : AckExpected evt) (hreq : evt.Request = some r) (hfirst : HasFirstAction evt) :
    ∃ S' effects, handleEvent rfc3339 workflows env S evt = Except.ok (S', effects) ∧
      (SilentCommand workflows S evt → acks effects = []) ∧
      (¬ SilentCommand workflows S evt → ∃ payload, acks effects = [(r, payload)]) := by
  obtain ⟨ty, data, req⟩ := evt
  simp only at hreq
  subst hreq
  rcases hkind with ⟨hty, e, hd⟩ | ⟨hty, cmd, hd⟩ | ⟨hty, cb, hd⟩
  · simp only at hty hd
    subst hty
    subst hd
    refine ⟨_, _, handleEvent_eventsAPI _ _ _ _ _ _, ?_, ?_⟩
    · rintro ⟨hs, -⟩
      have hne : EventTypeEventsAPI ≠ EventTypeSlashCommand := by decide
      exact absurd hs hne
    · intro _
      exact ⟨_, rfl⟩
  · simp only at hty hd
    subst hty
    subst hd
    obtain ⟨command, text⟩ := cmd
    by_cases h1 : command = "/summary"
    · subst h1
      refine ⟨_, _, handleEvent_summary _ _ _ _ _ _, ?_, ?_⟩
      · rintro ⟨-, c, hc, hsil⟩
        cases hc
        rcases hsil with ⟨hne, -⟩ | ⟨heq, -⟩
        · exact absurd rfl hne
        · have hne : "/summary" ≠ "/workflow" := by decide
          exact absurd heq hne
      · intro _
        exact ⟨_, rfl⟩
    · by_cases h2 : command = "/workflow"
      · subst h2
        cases hw : workflows.get? text with
        | none =>
          refine ⟨_, _, handleEvent_workflow_unknown _ _ _ _ _ _ hw, ?_, ?_⟩
          · rintro ⟨-, c, hc, hsil⟩
            cases hc
            rcases hsil with ⟨-, hne⟩ | ⟨-, w, hw', -⟩
            · exact absurd rfl hne
            · rw [hw] at hw'
              cases hw'
          · intro _
            exact ⟨_, rfl⟩
        | some w =>
          cases hmsg : S.messages.get? w.File with
          | none =>
            refine ⟨_, _, handleEvent_workflow_silent _ _ _ _ _ _ _ hw hmsg, ?_, ?_⟩
            · intro _
              rfl
            · intro hns
              exact absurd ⟨rfl, _, rfl, Or.inr ⟨rfl, w, hw, hmsg⟩⟩ hns
          | some msg =>
            refine ⟨_, _, handleEvent_workflow_found _ _ _ _ _ _ _ _ hw hmsg, ?_, ?_⟩
            · rintro ⟨-, c, hc, hsil⟩
              cases hc
              rcases hsil with ⟨-, hne⟩ | ⟨-, w', hw', hnone⟩
              · exact absurd rfl hne
              · rw [hw] at hw'
                cases hw'
                rw [hmsg] at hnone
                cases hnone
            · intro _
              exact ⟨_, rfl⟩
      · refine ⟨_, _, handleEvent_command_other _ _ _ _ ⟨command, text⟩ _ h1 h2, ?_, ?_⟩
        · intro _
          rfl
        · intro hns
          exact absurd ⟨rfl, _, rfl, Or.inl ⟨h1, h2⟩⟩ hns
  · simp only at hty hd
    subst hty
    subst hd
    have hnot : ¬ SilentCommand workflows S
        ⟨EventTypeInteractive, Data.interactionCallback cb, some r⟩ := by
      rintro ⟨hs, -⟩
      have hne : EventTypeInteractive ≠ EventTypeSlashCommand := by decide
      exact absurd hs hne
    by_cases hcb : cb.Type_ = InteractionTypeBlockActions
    · cases hacts : cb.ActionCallback.BlockActions with
      | nil => exact absurd hacts (hfirst cb rfl hcb)
      | cons a rest =>
        cases hmsg : S.messages.get? a.ActionID with
        | none =>
          refine ⟨_, _, handleEvent_blockActions_missing _ _ _ _ _ _ _ _ hcb hacts hmsg, ?_, ?_⟩
          · intro hs
            exact absurd hs hnot
          · intro _
            exact ⟨_, rfl⟩
        | some msg =>
          refine ⟨_, _, handleEvent_blockActions_found _ _ _ _ _ _ _ _ _ hcb hacts hmsg, ?_, ?_⟩
          · intro hs
            exact absurd hs hnot
          · intro _
            refine ⟨Payload.emptyStruct, ?_⟩
            cases env.postErr <;> rfl
    · refine ⟨_, _, handleEvent_interactive_other _ _ _ _ _ _ hcb, ?_, ?_⟩
      · intro hs
        exact absurd hs hnot
      · intro _
        exact ⟨_, rfl⟩

/-- C1 amended, at the block-action event `step2Event` over a store that holds `step2`. -/
theorem C1_amended_witness :
    AckExpected step2Event ∧ step2Event.Request = some demoRequest ∧
    HasFirstAction step2Event ∧
    ∃ S' effects, handleEvent demoRFC3339 demoRegistry demoEnv ⟨demoStore, []⟩ step2Event
        = Except.ok (S', effects) ∧
      (SilentCommand demoRegistry ⟨demoStore, []⟩ step2Event → acks effects = []) ∧
      (¬ SilentCommand demoRegistry ⟨demoStore, []⟩ step2Event →
        ∃ payload, acks effects = [(demoRequest, payload)]) :=
  have hkind : AckExpected step2Event := Or.inr (Or.inr ⟨rfl, _, rfl⟩)
  have hfirst : HasFirstAction step2Event := by
    intro cb hcb _
    cases hcb
    simp [step2Callback]
  ⟨hkind, rfl, hfirst,
    C1_amended_one_ack_outside_silent_commands demoRFC3339 demoRegistry demoEnv
      ⟨demoStore, []⟩ step2Event demoRequest hkind rfl hfirst⟩

/-- C2: a block-action event whose first action's identifier is a key of the template
store appends one record (user name, clock reading, first action's value) to the
ledger, then acknowledges once with the empty struct, then posts once to the
originating channel the blocks of the stored template; a failing post only adds a
diagnostic line, whatever the environment answers. -/
theorem C2_block_action_with_template (rfc3339 : time.Time → String)
    (workflows : GoMap Workflow) (env : Env) (S : World) (cb : InteractionCallback)
    (r : Request) (a : BlockAction) (rest : List BlockAction) (msg : Message)
    (hty : cb.Type_ = InteractionTypeBlockActions)
    (hacts : cb.ActionCallback.BlockActions = a :: rest)
    (hmsg : S.messages.get? a.ActionID = some msg) :
    ∃ effects,
      handleEvent rfc3339 workflows env S
          ⟨EventTypeInteractive, Data.interactionCallback cb, some r⟩
        = Except.ok
            (⟨S.messages, S.finishedWorkflows ++ [⟨cb.User.Name, env.now, "", a.Value⟩]⟩,
             effects) ∧
      effects = [Effect.log a.Value, Effect.ack r Payload.emptyStruct,
                 Effect.postMessage cb.Channel.ID msg.Blocks]
          ++ (if env.postErr.isSome then [Effect.log "error sending message: %v"] else []) ∧
      acks effects = [(r, Payload.emptyStruct)] ∧
      posts effects = [(cb.Channel.ID, msg.Blocks)] := by
  refine ⟨_, handleEvent_blockActions_found _ _ _ _ _ _ _ _ _ hty hacts hmsg, rfl, ?_, ?_⟩
  · cases env.postErr <;> rfl
  · cases env.postErr <;> rfl

/-- C2 at `step2Event` with a post that fails. -/
theorem C2_witness :
    ∃ effects,
      handleEvent demoRFC3339 demoRegistry failingPostEnv ⟨demoStore, [aliceRecord]⟩ step2Event
        = Except.ok (⟨demoStore, [aliceRecord, ⟨"alice", ⟨1⟩, "", "optionA"⟩]⟩, effects) ∧
      effects = [Effect.log "optionA", Effect.ack demoRequest Payload.emptyStruct,
                 Effect.postMessage "C42" [Block.other "divider" ""]]
          ++ (if failingPostEnv.postErr.isSome then [Effect.log "error sending message: %v"]
              else []) ∧
      acks effects = [(demoRequest, Payload.emptyStruct)] ∧
      posts effects = [("C42", [Block.other "divider" ""])] :=
  C2_block_action_with_template demoRFC3339 demoRegistry failingPostEnv
    ⟨demoStore, [aliceRecord]⟩ step2Callback demoRequest step2Action [] step2Message rfl rfl rfl

/-- C3: a block-action event whose first action's identifier is not a key of the
template store still appends its record to the ledger, acknowledges once with a single
markdown section block reading "could not find message callback " followed by the
first action's value, and posts nothing. -/
theorem C3_block_action_without_template (rfc3339 : time.Time → String)
    (workflows : GoMap Workflow) (env : Env) (S : World) (cb : InteractionCallback)
    (r : Request) (a : BlockAction) (rest : List BlockAction)
    (hty : cb.Type_ = InteractionTypeBlockActions)
    (hacts : cb.ActionCallback.BlockActions = a :: rest)
    (hmsg : S.messages.get? a.ActionID = none) :
    ∃ effects,
      handleEvent rfc3339 workflows env S
          ⟨EventTypeInteractive, Data.interactionCallback cb, some r⟩
        = Except.ok
            (⟨S.messages, S.finishedWorkflows ++ [⟨cb.User.Name, env.now, "", a.Value⟩]⟩,
             effects) ∧
      acks effects = [(r, Payload.blocksMap
        [Block.sectionBlock "section"
          (some ⟨"mrkdwn", "could not find message callback " ++ a.Value⟩) [] none])] ∧
      posts effects = [] :=
  ⟨_, handleEvent_blockActions_missing _ _ _ _ _ _ _ _ hty hacts hmsg, rfl, rfl⟩

/-- C3 at `step2Event` over an empty template store. -/
theorem C3_witness :
    ∃ effects,
      handleEvent demoRFC3339 demoRegistry demoEnv ⟨GoMap.empty, []⟩ step2Event
        = Except.ok (⟨GoMap.empty, [aliceRecord]⟩, effects) ∧
      acks effects = [(demoRequest, Payload.blocksMap
        [Block.sectionBlock "section"
          (some ⟨"mrkdwn", "could not find message callback " ++ "optionA"⟩) [] none])] ∧
      posts effects = [] :=
  C3_block_action_without_template demoRFC3339 demoRegistry demoEnv ⟨GoMap.empty, []⟩
    step2Callback demoRequest step2Action [] rfl rfl rfl

/-- C4: the `/summary` command leaves the ledger as it is and issues one
acknowledgment whose payload has one markdown section block per ledger record, in
ledger order, the text of block `i` being the user, " | ", the RFC3339 rendering of
the time, " | selected " and the value of record `i`. -/
theorem C4_summary_lists_ledger (rfc3339 : time.Time → String)
    (workflows : GoMap Workflow) (env : Env) (S : World) (text : String) (r : Request) :
    ∃ blocks,
      handleEvent rfc3339 workflows env S
          ⟨EventTypeSlashCommand, Data.slashCommand ⟨"/summary", text⟩, some r⟩
        = Except.ok (S, [Effect.ack r (Payload.blocksMap blocks)]) ∧
      blocks.length = S.finishedWorkflows.length ∧
      ∀ i : Nat, blocks[i]? = (S.finishedWorkflows[i]?).map (fun w =>
        Block.sectionBlock "section"
          (some ⟨"mrkdwn", w.User ++ " | " ++ rfc3339 w.Time ++ " | selected " ++ w.Value⟩)
          [] none) := by
  refine ⟨_, handleEvent_summary _ _ _ _ _ _, by simp, ?_⟩
  intro i
  simp [List.getElem?_map]
  rfl

/-- C5: `/workflow` with an argument that is not a name of the registry issues one
acknowledgment whose payload is a single markdown section block reading
"could not find workflow " followed by the argument, for every template store. -/
theorem C5_unknown_workflow (rfc3339 : time.Time → String)
    (workflows : GoMap Workflow) (env : Env) (S : World) (s : String) (r : Request)
    (hmiss : workflows.get? s = none) :
    handleEvent rfc3339 workflows env S
        ⟨EventTypeSlashCommand, Data.slashCommand ⟨"/workflow", s⟩, some r⟩
      = Except.ok (S, [Effect.ack r (Payload.blocksMap
          [Block.sectionBlock "section"
            (some ⟨"mrkdwn", "could not find workflow " ++ s⟩) [] none])]) :=
  handleEvent_workflow_unknown _ _ _ _ _ _ hmiss

/-- C5 at the argument "onboarding" over an empty registry. -/
theorem C5_witness :
    handleEvent demoRFC3339 GoMap.empty demoEnv ⟨demoStore, [aliceRecord]⟩
        ⟨EventTypeSlashCommand, Data.slashCommand ⟨"/workflow", "onboarding"⟩,
          some demoRequest⟩
      = Except.ok (⟨demoStore, [aliceRecord]⟩, [Effect.ack demoRequest (Payload.blocksMap
          [Block.sectionBlock "section"
            (some ⟨"mrkdwn", "could not find workflow " ++ "onboarding"⟩) [] none])]) :=
  C5_unknown_workflow demoRFC3339 GoMap.empty demoEnv ⟨demoStore, [aliceRecord]⟩
    "onboarding" demoRequest rfl

/-- C6: for `/workflow` with an argument that names a registered workflow, an
acknowledgment is issued exactly when the workflow's file is a key of the template
store; then it is the only one and its payload is the stored message itself;
otherwise neither an acknowledgment nor a post-message call is issued. -/
theorem C6_registered_workflow (rfc3339 : time.Time → String)
    (workflows : GoMap Workflow) (env : Env) (S : World) (s : String) (r : Request)
    (w : Workflow) (hw : workflows.get? s = some w) :
    ∃ effects,
      handleEvent rfc3339 workflows env S
          ⟨EventTypeSlashCommand, Data.slashCommand ⟨"/workflow", s⟩, some r⟩
        = Except.ok (S, effects) ∧
      (acks effects ≠ [] ↔ ∃ msg, S.messages.get? w.File = some msg) ∧
      (∀ msg, S.messages.get? w.File = some msg →
        effects = [Effect.ack r (Payload.message msg)] ∧
        acks effects = [(r, Payload.message msg)] ∧ posts effects = []) ∧
      (S.messages.get? w.File = none → acks effects = [] ∧ posts effects = []) := by
  cases hmsg : S.messages.get? w.File with
  | none =>
    refine ⟨_, handleEvent_workflow_silent _ _ _ _ _ _ _ hw hmsg, ?_, ?_, ?_⟩
    · constructor
      · intro h
        exact absurd rfl h
      · rintro ⟨msg, hm⟩
        cases hm
    · intro msg hm
      cases hm
    · intro _
      exact ⟨rfl, rfl⟩
  | some msg =>
    refine ⟨_, handleEvent_workflow_found _ _ _ _ _ _ _ _ hw hmsg, ?_, ?_, ?_⟩
    · constructor
      · intro _
        exact ⟨msg, rfl⟩
      · intro _ h
        cases h
    · intro msg' hm
      cases hm
      exact ⟨rfl, rfl, rfl⟩
    · intro h
      cases h

/-- C6 at `/workflow onboarding`, the registry resolving it to the stored `step2`. -/
theorem C6_witness :
    ∃ effects,
      handleEvent demoRFC3339 demoRegistry demoEnv ⟨demoStore, []⟩
          ⟨EventTypeSlashCommand, Data.slashCommand ⟨"/workflow", "onboarding"⟩,
            some demoRequest⟩
        = Except.ok (⟨demoStore, []⟩, effects) ∧
      (acks effects ≠ [] ↔ ∃ msg, demoStore.get? "step2" = some msg) ∧
      (∀ msg, demoStore.get? "step2" = some msg →
        effects = [Effect.ack demoRequest (Payload.message msg)] ∧
        acks effects = [(demoRequest, Payload.message msg)] ∧ posts effects = []) ∧
      (demoStore.get? "step2" = none → acks effects = [] ∧ posts effects = []) :=
  C6_registered_workflow demoRFC3339 demoRegistry demoEnv ⟨demoStore, []⟩ "onboarding"
    demoRequest ⟨"onboarding", "step2"⟩ rfl

/-- C7: in the registry built from a list of configured workflows, a name is bound to
the last list element carrying it, and a name carried by no element is not found. -/
theorem C7_registry_last_wins (configured : List Workflow) (name : String) :
    (∀ (before : List Workflow) (w : Workflow) (after : List Workflow),
        configured = before ++ w :: after → w.Name = name →
        (∀ x ∈ after, x.Name ≠ name) →
        (buildWorkflows configured).get? name = some w) ∧
    ((∀ x ∈ configured, x.Name ≠ name) → (buildWorkflows configured).get? name = none) := by
  constructor
  · intro before w after hsplit hname hlast
    subst hsplit
    have hnone : after.reverse.find? (fun x => x.Name == name) = none := by
      rw [List.find?_eq_none]
      intro x hx
      simpa using hlast x (List.mem_reverse.mp hx)
    rw [buildWorkflows_get?, List.reverse_append, List.reverse_cons, List.append_assoc,
      List.find?_append, List.find?_append, hnone]
    simp [hname]
  · intro hnone
    rw [buildWorkflows_get?, List.find?_eq_none]
    intro x hx
    simpa using hnone x (List.mem_reverse.mp hx)

/-- C7 on a list that configures the name "a" twice. -/
theorem C7_witness :
    (buildWorkflows [⟨"a", "first.json"⟩, ⟨"b", "other.json"⟩, ⟨"a", "second.json"⟩,
        ⟨"c", "third.json"⟩]).get? "a" = some ⟨"a", "second.json"⟩ ∧
    (buildWorkflows [⟨"a", "first.json"⟩, ⟨"b", "other.json"⟩]).get? "z" = none :=
  ⟨(C7_registry_last_wins
      [⟨"a", "first.json"⟩, ⟨"b", "other.json"⟩, ⟨"a", "second.json"⟩, ⟨"c", "third.json"⟩]
      "a").1 [⟨"a", "first.json"⟩, ⟨"b", "other.json"⟩] ⟨"a", "second.json"⟩
      [⟨"c", "third.json"⟩] rfl rfl (by decide),
   (C7_registry_last_wins [⟨"a", "first.json"⟩, ⟨"b", "other.json"⟩] "z").2 (by decide)⟩

/-- C8 fails on the code at a block-action event without actions: the handler stops
at the index expression before anything is appended, so the event adds no record, and
a stream of two block-action events does not end with a ledger of two records. -/
theorem C8_zero_action_event_adds_no_record :
    isBlockActions zeroActionEvent = true ∧
    handleEvent demoRFC3339 demoRegistry demoEnv ⟨demoStore, [aliceRecord]⟩ zeroActionEvent
      = Except.error (Panic.indexOutOfRange 0 0) ∧
    eventLoop demoRFC3339 demoRegistry [(demoEnv, step2Event), (demoEnv, zeroActionEvent)]
        ⟨demoStore, []⟩
      = Except.error (Panic.indexOutOfRange 0 0) :=
  ⟨rfl, rfl, rfl⟩

/-- C9: a command event whose identifier is neither "/summary" nor "/workflow" is
handled without acknowledgment, without post-message call and without change of the
ledger or the template store. -/
theorem C9_unrecognised_command_is_ignored (rfc3339 : time.Time → String)
    (workflows : GoMap Workflow) (env : Env) (S : World) (cmd : SlashCommand)
    (req : Option Request) (h1 : cmd.Command ≠ "/summary") (h2 : cmd.Command ≠ "/workflow") :
    ∃ effects,
      handleEvent rfc3339 workflows env S
          ⟨EventTypeSlashCommand, Data.slashCommand cmd, req⟩
        = Except.ok (S, effects) ∧
      acks effects = [] ∧ posts effects = [] :=
  ⟨_, handleEvent_command_other _ _ _ _ _ _ h1 h2, rfl, rfl⟩

/-- C9 at the command "/help". -/
theorem C9_witness :
    ∃ effects,
      handleEvent demoRFC3339 demoRegistry demoEnv ⟨demoStore, [aliceRecord]⟩
          ⟨EventTypeSlashCommand, Data.slashCommand ⟨"/help", "me"⟩, some demoRequest⟩
        = Except.ok (⟨demoStore, [aliceRecord]⟩, effects) ∧
      acks effects = [] ∧ posts effects = [] :=
  C9_unrecognised_command_is_ignored demoRFC3339 demoRegistry demoEnv
    ⟨demoStore, [aliceRecord]⟩ ⟨"/help", "me"⟩ (some demoRequest) (by decide) (by decide)

/-- C10 fails on the code: for every state, a block-action event whose action list is
empty makes the index expression `BlockActions[0]` panic, which ends the event loop. -/
theorem C10_index_panics_on_empty_actions (rfc3339 : time.Time → String)
    (workflows : GoMap Workflow) (env : Env) (S : World) (user : User) (channel : Channel)
    (req : Option Request) (rest : List (Env × Event)) :
    handleEvent rfc3339 workflows env S
        ⟨EventTypeInteractive,
          Data.interactionCallback ⟨InteractionTypeBlockActions, user, channel, ⟨[]⟩⟩, req⟩
      = Except.error (Panic.indexOutOfRange 0 0) ∧
    eventLoop rfc3339 workflows
        ((env, ⟨EventTypeInteractive,
          Data.interactionCallback ⟨InteractionTypeBlockActions, user, channel, ⟨[]⟩⟩, req⟩)
          :: rest) S
      = Except.error (Panic.indexOutOfRange 0 0) := by
  have h := handleEvent_blockActions_empty rfc3339 workflows env S
    ⟨InteractionTypeBlockActions, user, channel, ⟨[]⟩⟩ req rfl rfl
  exact ⟨h, by simp [eventLoop, h, bind, Except.bind]⟩

end Claims

end Slackbot
